import Mathlib

/-!
Verification of the `personal-tools` repository against its natural-language
specification.  Each Python source file is shallowly embedded as pure Lean
definitions: randomness is made explicit by passing the values that the
library calls `random.random()`, `random.choice` and `random.randint` would
have produced, filesystem trees become lists of path name strings, and
subprocess execution becomes an explicit outcome datum plus a spawn trace.
-/

namespace GenerateRiskyCsv

/-- Embeds the `safe_text` pool of `src/generate_risky_csv.py`. -/
def safe_text : List String :=
  ["invoice", "payment", "summary", "note", "value", "description",
   "update", "record", "customer", "portfolio"]

/-- Embeds the `formula_like` pool of `src/generate_risky_csv.py`. -/
def formula_like : List String :=
  ["=SUM(A1:A3)", "+AVG(B2:B10)", "-12345", "@HYPERLINK('url')",
   "=CMD('example')", "+OPEN('file')", "-CALC()", "@SHELL('cmd')"]

/-- Embeds `random.randint(low, high)`: the uniform integer draw is made
explicit through a seed `k`; as `k` ranges over the naturals the result
ranges over exactly the values Python's `randint` can return. -/
def randint (low high : ℤ) (k : ℕ) : ℤ :=
  low + (k : ℤ) % (high - low + 1)

/-- Embeds `random.choice(pool)`: the uniform index draw is the explicit
seed `i`, reduced modulo the pool size. -/
def choice (pool : List String) (i : ℕ) : String :=
  pool.getD (i % pool.length) ""

/-- Embeds `random_cell` of `src/generate_risky_csv.py`.  The source calls
`random.random()` twice: once in the `if` guard and, when that guard fails,
a second time in the `elif` guard.  The two draws appear here as `u1` and
`u2`; `i`, `k`, `j` are the explicit draws for `random.choice(formula_like)`,
`random.randint(low, high)` and `random.choice(safe_text)`. -/
def random_cell (flag1 flag2 : ℚ) (low high : ℤ) (u1 u2 : ℚ) (i k j : ℕ) : String :=
  if u1 < flag1 then
    choice formula_like i
  else if u2 < flag2 then
    toString (randint low high k)
  else
    choice safe_text j

/-- The branch selector implicit in `random_cell`: 0 = formula pool,
1 = numeric string, 2 = safe pool, as a function of the two
`random.random()` draws. -/
def random_cell_branch (flag1 flag2 : ℚ) (u1 u2 : ℚ) : ℕ :=
  if u1 < flag1 then 0
  else if u2 < flag2 then 1
  else 2

/-- Embeds `generate_csv` of `src/generate_risky_csv.py` as the list of
records written to the CSV file: the header row `col0..col(cols-1)`
followed by `rows` records of `cols` cells each.  The stream of values
produced by the `random_cell()` calls is passed explicitly as `cell`. -/
def generate_csv (cell : ℕ → ℕ → String) (rows cols : ℕ) : List (List String) :=
  ((List.range cols).map (fun i => "col" ++ toString i)) ::
    (List.range rows).map (fun r => (List.range cols).map (fun c => cell r c))

end GenerateRiskyCsv

namespace OmarchyCheck

/-- Whether `name` ends with the extension `ext`: the matching relation of
a glob pattern `*` followed by `ext`, as `fnmatch` resolves the patterns
handed to `path.rglob`. -/
def globSuffix (ext : String) (name : String) : Bool :=
  ext.data.isSuffixOf name.data

/-- Embeds the scanning part of `check_folder_integrity` of
`src/omarchy_check.py` for an existing directory: the directory tree is
the list `entries` of the path name strings that `path.rglob` walks, a
glob pattern `*.tmp` (resp. `*.lock`) selects exactly the names ending in
`.tmp` (resp. `.lock`), and the function reports the pair
`(tmp_files, lock_files)`; the printed counts are the two lengths. -/
def check_folder_integrity (entries : List String) : List String × List String :=
  (entries.filter (fun f => globSuffix ".tmp" f),
   entries.filter (fun f => globSuffix ".lock" f))

end OmarchyCheck

namespace ArchCheck

/-- Embeds `pathlib.PurePath.suffix`: the substring of the final path
component from its last dot, empty when there is no dot, when the only dot
leads the name (a hidden file like `.lock`), or when the dot is last. -/
def suffix (name : String) : String :=
  let cs := name.data
  match (List.range cs.length).reverse.find? (fun idx => cs.getD idx ' ' == '.') with
  | some idx => if 0 < idx ∧ idx < cs.length - 1 then String.mk (cs.drop idx) else ""
  | none => ""

/-- Embeds the scanning part of `check_file_locks` of `src/arch_check.py`:
`LOGSEQ_WORKSPACE.rglob(\x22*\x22)` walks every entry of the workspace tree,
given here as the list `entries` of path name strings, and the function
collects those whose `suffix` is `.lock` or `.tmp`; the printed count is
the length of the collected list. -/
def check_file_locks (entries : List String) : List String :=
  entries.filter (fun f => [".lock", ".tmp"].contains (suffix f))

end ArchCheck

namespace BootstrapPy

/-- Embeds the `app_version` constant of `src/bootstrap.py`. -/
def app_version : String := "0.0.4"

/-- Embeds `subprocess.CompletedProcess` as used by `src/bootstrap.py`. -/
structure CompletedProcess where
  returncode : ℤ
  stdout : String
  stderr : String
deriving Repr, DecidableEq

/-- Embeds `BootstrapException` of `src/bootstrap.py`: a message plus the
`rc` attribute (default 1 in the source constructor). -/
structure BootstrapException where
  message : String
  rc : ℤ
deriving Repr, DecidableEq

/-- The possible behaviors of the one `subprocess.run` call inside
`Bootstrap.run_command`: normal completion with a return code and captured
streams, `subprocess.TimeoutExpired`, or `FileNotFoundError`. -/
inductive RunOutcome where
  | completed (rc : ℤ) (stdout stderr : String)
  | timedOut
  | notFound
deriving Repr, DecidableEq

/-- Embeds `Bootstrap.run_command` of `src/bootstrap.py`.  The behavior of
the child process is the explicit `outcome` argument.  The result pairs the
spawn trace — the argv lists handed to `subprocess.run`, in order, so that
retry behavior is observable — with either the returned `CompletedProcess`
or the raised `BootstrapException`.  `shlex.split` is modeled as splitting
on spaces (no claim exercises quoting).  With `check` set, a nonzero child
exit raises `subprocess.CalledProcessError`, which the source converts to a
`BootstrapException` carrying the child's own code; timeout converts to
code 124 and a missing executable to code 127. -/
def run_command (command : String) (timeout : ℕ) (check : Bool) (outcome : RunOutcome) :
    List (List String) × Except BootstrapException CompletedProcess :=
  let command_list := command.splitOn " "
  ([command_list],
    match outcome with
    | .completed rc out err =>
        if check = true ∧ rc ≠ 0 then
          .error ⟨"Command failed with exit code " ++ toString rc ++ ": " ++ command ++
            (if err ≠ "" then "\nStderr: " ++ err else ""), rc⟩
        else
          .ok ⟨rc, out, err⟩
    | .timedOut =>
        .error ⟨"Command timed out after " ++ toString timeout ++ "s: " ++ command, 124⟩
    | .notFound =>
        .error ⟨"Command not found: " ++ command_list.headD "" ++
          ". Please ensure it's installed and in your PATH.", 127⟩)

/-- Embeds `Bootstrap.install_reqs` of `src/bootstrap.py`: `req_exists` is
the value of `req_path.exists()`, and the result pairs the spawn trace with
the raised exception, if any.  When the requirements file is missing the
function raises rc 2 before any subprocess is invoked. -/
def install_reqs (requirements_file : String) (req_exists : Bool) (outcome : RunOutcome) :
    List (List String) × Except BootstrapException Unit :=
  if req_exists = false then
    ([], .error ⟨"Requirements file not found: " ++ requirements_file, 2⟩)
  else
    let r := run_command ("uv add -r " ++ requirements_file) 300 true outcome
    (r.1, r.2.map (fun _ => ()))

/-- The member classes of the `user_errors` tuple in `clean_terminate` that
are `OSError` subclasses (so carry an `errno` attribute and no `rc`). -/
inductive UserErrorKind where
  | permissionError
  | fileExistsError
  | fileNotFoundError
  | interruptedError
  | isADirectoryError
  | notADirectoryError
deriving Repr, DecidableEq

/-- The exceptions reaching `clean_terminate`: `subprocess.TimeoutExpired`,
a `BootstrapException` (whose `rc` attribute exists), one of the recognized
`OSError` subclasses (whose `errno` attribute is an integer or `None`; the
`None` case is modeled as the fallback value 1, which also matches the
interpreter's exit status when `int(None)` raises), or any other class. -/
inductive PyError where
  | timeoutExpired (cmd : String)
  | bootstrapException (message : String) (rc : ℤ)
  | osError (kind : UserErrorKind) (errno : Option ℤ)
  | other (name : String)
deriving Repr, DecidableEq

/-- Embeds `clean_terminate` of `src/bootstrap.py` as the process exit code
passed to `sys.exit`: 124 for a timeout, `getattr(err, \x22rc\x22,
getattr(err, \x22errno\x22, 1))` for the recognized user errors, and the
fixed catch-all 255 for everything else. -/
def clean_terminate : PyError → ℤ
  | .timeoutExpired _ => 124
  | .bootstrapException _ rc => rc
  | .osError _ errno => errno.getD 1
  | .other _ => 255

/-- Embeds the version handling of the `main` callback of
`src/bootstrap.py`: the pair of the lines echoed and the `typer.Exit` code
raised, if any; with the version flag set it prints the fixed version line
and raises `typer.Exit(0)`. -/
def main (verbose : ℕ) (version : Bool) : List String × Option ℤ :=
  if version = true then
    (["Bootstrap CLI version " ++ app_version], some 0)
  else
    ([], none)

/-- The possible behaviors of the `cli_app()` call inside `cli_run`. -/
inductive CliOutcome where
  | normal
  | exited (code : ℤ)
  | interrupted
  | raised (err : PyError)
deriving Repr, DecidableEq

/-- Embeds `cli_run` of `src/bootstrap.py` as the final process exit code:
a `typer.Exit` is forwarded, `KeyboardInterrupt` exits 130, any other
exception goes through `clean_terminate`, and a normal return exits 0. -/
def cli_run (o : CliOutcome) : ℤ :=
  match o with
  | .normal => 0
  | .exited code => code
  | .interrupted => 130
  | .raised err => clean_terminate err

end BootstrapPy

namespace GenerateRiskyCsv

lemma choice_mem (pool : List String) (i : ℕ) (h : pool ≠ []) : choice pool i ∈ pool := by
  unfold choice
  have hlen : 0 < pool.length := List.length_pos.mpr h
  have hi : i % pool.length < pool.length := Nat.mod_lt _ hlen
  rw [List.getD_eq_getElem _ _ hi]
  exact List.getElem_mem hi

lemma randint_bounds (low high : ℤ) (k : ℕ) (hlh : low ≤ high) :
    low ≤ randint low high k ∧ randint low high k ≤ high := by
  unfold randint
  have hM : (0:ℤ) < high - low + 1 := by omega
  have h1 : 0 ≤ (k : ℤ) % (high - low + 1) := Int.emod_nonneg _ (by omega)
  have h2 : (k : ℤ) % (high - low + 1) < high - low + 1 := Int.emod_lt_of_pos _ hM
  omega

lemma randint_surj (low high : ℤ) (m : ℤ) (h1 : low ≤ m) (h2 : m ≤ high) :
    ∃ k : ℕ, randint low high k = m := by
  refine ⟨(m - low).toNat, ?_⟩
  unfold randint
  have hnn : (0:ℤ) ≤ m - low := by omega
  rw [Int.toNat_of_nonneg hnn, Int.emod_eq_of_lt hnn (by omega)]
  omega

lemma div_cast_lt (N a p : ℕ) (hN : 0 < N) :
    ((p : ℚ) / N < (a : ℚ) / N) ↔ p < a := by
  rw [div_lt_div_iff_of_pos_right (by exact_mod_cast hN)]
  exact_mod_cast Iff.rfl

lemma branch_grid (N a b p q : ℕ) (hN : 0 < N) :
    random_cell_branch ((a : ℚ)/N) ((b : ℚ)/N) ((p : ℚ)/N) ((q : ℚ)/N)
      = if p < a then 0 else if q < b then 1 else 2 := by
  unfold random_cell_branch
  rw [if_congr (div_cast_lt N a p hN) rfl rfl, if_congr (div_cast_lt N b q hN) rfl rfl]

lemma filter_not_lt (N a : ℕ) :
    (Finset.range N).filter (fun p => ¬ p < a) = Finset.Ico a N := by
  ext x; simp [Finset.mem_filter, Finset.mem_range, Finset.mem_Ico]; omega

lemma filter_lt (N a : ℕ) (ha : a ≤ N) :
    (Finset.range N).filter (fun p => p < a) = Finset.range a := by
  ext x; simp [Finset.mem_filter, Finset.mem_range]; omega

lemma formula_grid_count (N a b : ℕ) (hN : 0 < N) (ha : a ≤ N) :
    ((Finset.range N ×ˢ Finset.range N).filter
      (fun pq => random_cell_branch ((a : ℚ)/N) ((b : ℚ)/N) ((pq.1 : ℚ)/N) ((pq.2 : ℚ)/N) = 0)).card
      = a * N := by
  have hcong : ∀ pq ∈ Finset.range N ×ˢ Finset.range N,
      (random_cell_branch ((a : ℚ)/N) ((b : ℚ)/N) ((pq.1 : ℚ)/N) ((pq.2 : ℚ)/N) = 0)
        = (pq.1 < a ∧ True) := by
    intro pq _
    rw [branch_grid N a b pq.1 pq.2 hN]
    by_cases h1 : pq.1 < a <;> by_cases h2 : pq.2 < b <;> simp [h1, h2]
  rw [Finset.filter_congr (fun pq hpq => by rw [hcong pq hpq])]
  rw [Finset.filter_product (fun p => p < a) (fun _ => True), Finset.card_product,
    filter_lt N a ha, Finset.filter_True, Finset.card_range, Finset.card_range]

lemma numeric_grid_count (N a b : ℕ) (hN : 0 < N) (hb : b ≤ N) :
    ((Finset.range N ×ˢ Finset.range N).filter
      (fun pq => random_cell_branch ((a : ℚ)/N) ((b : ℚ)/N) ((pq.1 : ℚ)/N) ((pq.2 : ℚ)/N) = 1)).card
      = (N - a) * b := by
  have hcong : ∀ pq ∈ Finset.range N ×ˢ Finset.range N,
      (random_cell_branch ((a : ℚ)/N) ((b : ℚ)/N) ((pq.1 : ℚ)/N) ((pq.2 : ℚ)/N) = 1)
        = (¬ pq.1 < a ∧ pq.2 < b) := by
    intro pq _
    rw [branch_grid N a b pq.1 pq.2 hN]
    by_cases h1 : pq.1 < a <;> by_cases h2 : pq.2 < b <;> simp [h1, h2]
  rw [Finset.filter_congr (fun pq hpq => by rw [hcong pq hpq])]
  rw [Finset.filter_product (fun p => ¬ p < a) (fun q => q < b), Finset.card_product,
    filter_not_lt, filter_lt N b hb, Nat.card_Ico, Finset.card_range]

/-- C1 counterexample: the cell sampler is not driven by a single uniform
draw.  With thresholds flag1 = 1/5 < flag2 = 2/5 ≤ 1 and first draw
u1 = 3/10 in [flag1, flag2) — where the claim requires the decimal string
of the drawn integer, here `1` — the source nevertheless returns the safe
word `invoice`, because the `elif` guard consumes a second draw (9/10)
that fails `u2 < flag2`.  Consequently, over the uniform 10×10 grid of
draw pairs, 32 of 100 outputs are numeric, whereas flag2 − flag1
prescribes 20 of 100. -/
theorem random_cell_single_draw_counterexample :
    ((1:ℚ)/5 < 2/5 ∧ ((2:ℚ)/5) ≤ 1) ∧
    ((1:ℚ)/5 ≤ 3/10 ∧ (3:ℚ)/10 < 2/5) ∧
    random_cell ((1:ℚ)/5) ((2:ℚ)/5) 1 10000 ((3:ℚ)/10) ((9:ℚ)/10) 0 0 0 = "invoice" ∧
    "invoice" ∈ safe_text ∧
    toString (randint 1 10000 0) = "1" ∧
    ("invoice" : String) ≠ "1" ∧
    ((Finset.range 10 ×ˢ Finset.range 10).filter
      (fun pq => random_cell_branch ((1:ℚ)/5) ((2:ℚ)/5)
        ((pq.1 : ℚ)/10) ((pq.2 : ℚ)/10) = 1)).card = 32 ∧
    ¬ (((2:ℚ)/5 - 1/5) * (10 * 10) = 32) := by
  refine ⟨⟨by norm_num, by norm_num⟩, ⟨by norm_num, by norm_num⟩, ?_, by decide, ?_,
    by decide, ?_, by norm_num⟩
  · unfold random_cell
    norm_num
    rfl
  · rfl
  · have h := numeric_grid_count 10 2 4 (by norm_num) (by norm_num)
    norm_num at h
    exact h

/-- C1 amended: `random_cell` consumes two independent uniform draws, u1 in
the `if` guard and u2 in the `elif` guard.  The output is a formula-pool
value iff u1 < flag1; the decimal string of the drawn integer iff
u1 ≥ flag1 and u2 < flag2; and a safe word otherwise.  Over the uniform
N×N grid of draw pairs with flag1 = a/N and flag2 = b/N, the fraction of
formula-like outputs is a·N/N² = flag1 and the fraction of numeric outputs
is (N−a)·b/N² = (1 − flag1)·flag2. -/
theorem random_cell_two_draw_law (N a b : ℕ) (hN : 0 < N) (ha : a ≤ N) (hb : b ≤ N) :
    (∀ (low high : ℤ) (u1 u2 : ℚ) (i k j : ℕ),
      (u1 < (a:ℚ)/N →
        random_cell ((a:ℚ)/N) ((b:ℚ)/N) low high u1 u2 i k j = choice formula_like i) ∧
      (¬ u1 < (a:ℚ)/N → u2 < (b:ℚ)/N →
        random_cell ((a:ℚ)/N) ((b:ℚ)/N) low high u1 u2 i k j = toString (randint low high k)) ∧
      (¬ u1 < (a:ℚ)/N → ¬ u2 < (b:ℚ)/N →
        random_cell ((a:ℚ)/N) ((b:ℚ)/N) low high u1 u2 i k j = choice safe_text j)) ∧
    ((Finset.range N ×ˢ Finset.range N).filter
      (fun pq => random_cell_branch ((a:ℚ)/N) ((b:ℚ)/N) ((pq.1 : ℚ)/N) ((pq.2 : ℚ)/N) = 0)).card
      = a * N ∧
    ((Finset.range N ×ˢ Finset.range N).filter
      (fun pq => random_cell_branch ((a:ℚ)/N) ((b:ℚ)/N) ((pq.1 : ℚ)/N) ((pq.2 : ℚ)/N) = 1)).card
      = (N - a) * b := by
  refine ⟨?_, formula_grid_count N a b hN ha, numeric_grid_count N a b hN hb⟩
  intro low high u1 u2 i k j
  refine ⟨fun h1 => ?_, fun h1 h2 => ?_, fun h1 h2 => ?_⟩ <;> unfold random_cell
  · rw [if_pos h1]
  · rw [if_neg h1, if_pos h2]
  · rw [if_neg h1, if_neg h2]

/-- Witness for the amended C1 law at N = 10, a = 2, b = 4 (flag1 = 1/5,
flag2 = 2/5): 20 of the 100 grid pairs give a formula output and 32 give a
numeric output. -/
theorem random_cell_two_draw_law_witness :
    ((0:ℕ) < 10 ∧ (2:ℕ) ≤ 10 ∧ (4:ℕ) ≤ 10) ∧
    ((Finset.range 10 ×ˢ Finset.range 10).filter
      (fun pq => random_cell_branch ((1:ℚ)/5) ((2:ℚ)/5)
        ((pq.1 : ℚ)/10) ((pq.2 : ℚ)/10) = 0)).card = 20 ∧
    ((Finset.range 10 ×ˢ Finset.range 10).filter
      (fun pq => random_cell_branch ((1:ℚ)/5) ((2:ℚ)/5)
        ((pq.1 : ℚ)/10) ((pq.2 : ℚ)/10) = 1)).card = 32 := by
  have h := random_cell_two_draw_law 10 2 4 (by norm_num) (by norm_num) (by norm_num)
  refine ⟨⟨by norm_num, by norm_num, by norm_num⟩, ?_, ?_⟩
  · have h0 := h.2.1
    norm_num at h0
    exact h0
  · have h1 := h.2.2
    norm_num at h1
    exact h1

/-- C4: for every `rows` and `cols`, the record list written by
`generate_csv` is the header row `col0..col(cols-1)` — which has `cols`
fields — followed by exactly `rows` data records of `cols` fields each. -/
theorem generate_csv_shape (cell : ℕ → ℕ → String) (rows cols : ℕ) :
    (generate_csv cell rows cols).length = rows + 1 ∧
    (generate_csv cell rows cols).head? =
      some ((List.range cols).map (fun i => "col" ++ toString i)) ∧
    ((List.range cols).map (fun i => "col" ++ toString i)).length = cols ∧
    (generate_csv cell rows cols).tail.length = rows ∧
    (∀ row ∈ (generate_csv cell rows cols).tail, row.length = cols) := by
  refine ⟨by simp [generate_csv], rfl, by simp, by simp [generate_csv], ?_⟩
  intro row hrow
  simp only [generate_csv, List.tail_cons, List.mem_map, List.mem_range] at hrow
  obtain ⟨r, _, rfl⟩ := hrow
  simp

/-- C5: whenever the sampler takes the numeric branch (first draw fails the
formula guard, second draw passes the numeric guard) with low ≤ high, it
returns the decimal string of the drawn integer, every drawable integer
lies in [low, high], every integer of [low, high] is drawable, and in
particular both endpoints are attainable. -/
theorem random_cell_numeric_inclusive (flag1 flag2 : ℚ) (low high : ℤ) (u1 u2 : ℚ)
    (i k j : ℕ) (h1 : ¬ u1 < flag1) (h2 : u2 < flag2) (hlh : low ≤ high) :
    random_cell flag1 flag2 low high u1 u2 i k j = toString (randint low high k) ∧
    low ≤ randint low high k ∧ randint low high k ≤ high ∧
    (∀ m : ℤ, low ≤ m → m ≤ high → ∃ k0 : ℕ, randint low high k0 = m) ∧
    (∃ k0 : ℕ, randint low high k0 = low) ∧ (∃ k1 : ℕ, randint low high k1 = high) := by
  have hb := randint_bounds low high k hlh
  exact ⟨by unfold random_cell; rw [if_neg h1, if_pos h2], hb.1, hb.2,
    fun m hm1 hm2 => randint_surj low high m hm1 hm2,
    randint_surj low high low le_rfl hlh, randint_surj low high high hlh le_rfl⟩

/-- Witness for C5 at flag1 = 1/5, flag2 = 2/5, low = 1, high = 10000,
u1 = 1/2, u2 = 1/10, integer seed 0. -/
theorem random_cell_numeric_inclusive_witness :
    ¬ ((1:ℚ)/2 < 1/5) ∧ ((1:ℚ)/10 < 2/5) ∧ ((1:ℤ) ≤ 10000) ∧
    random_cell ((1:ℚ)/5) ((2:ℚ)/5) 1 10000 ((1:ℚ)/2) ((1:ℚ)/10) 0 0 0
      = toString (randint 1 10000 0) ∧
    (1:ℤ) ≤ randint 1 10000 0 ∧ randint 1 10000 0 ≤ 10000 := by
  have h := random_cell_numeric_inclusive (1/5) (2/5) 1 10000 (1/2) (1/10) 0 0 0
    (by norm_num) (by norm_num) (by norm_num)
  exact ⟨by norm_num, by norm_num, by norm_num, h.1, h.2.1, h.2.2.1⟩

/-- C10: with low ≤ high, every value `random_cell` returns is a member of
the formula pool, a member of the safe pool, or the decimal string of an
integer in [low, high]; and the formula pool itself contains the entry
`-12345`, so a numeric-looking output does not imply the numeric branch. -/
theorem random_cell_pool_membership (flag1 flag2 : ℚ) (low high : ℤ) (u1 u2 : ℚ)
    (i k j : ℕ) (hlh : low ≤ high) :
    (random_cell flag1 flag2 low high u1 u2 i k j ∈ formula_like ∨
     random_cell flag1 flag2 low high u1 u2 i k j ∈ safe_text ∨
     ∃ n : ℤ, low ≤ n ∧ n ≤ high ∧
       random_cell flag1 flag2 low high u1 u2 i k j = toString n) ∧
    "-12345" ∈ formula_like := by
  refine ⟨?_, by decide⟩
  unfold random_cell
  by_cases hA : u1 < flag1
  · rw [if_pos hA]
    exact Or.inl (choice_mem formula_like i (by decide))
  · rw [if_neg hA]
    by_cases hB : u2 < flag2
    · rw [if_pos hB]
      exact Or.inr (Or.inr ⟨randint low high k, (randint_bounds low high k hlh).1,
        (randint_bounds low high k hlh).2, rfl⟩)
    · rw [if_neg hB]
      exact Or.inr (Or.inl (choice_mem safe_text j (by decide)))

/-- Witness for C10 with low = 1 ≤ high = 10000. -/
theorem random_cell_pool_membership_witness :
    ((1:ℤ) ≤ 10000) ∧ "-12345" ∈ formula_like :=
  ⟨by norm_num,
   (random_cell_pool_membership (1/5) (2/5) 1 10000 (1/2) (1/10) 0 0 0 (by norm_num)).2⟩

end GenerateRiskyCsv

namespace OmarchyCheck

/-- C2: the folder-integrity scan reports no lock/temp files exactly when
the tree has none; it reports every entry ending in `.tmp` among the
temporary files and every entry ending in `.lock` among the lock files,
and nothing else; and a directory holding exactly `a.lock` and `b.tmp`
yields a reported count of 2 — both under `check_folder_integrity` of
`omarchy_check.py` and under `check_file_locks` of `arch_check.py`. -/
theorem check_folder_integrity_reports (entries : List String) :
    ((∀ e ∈ entries, ¬ (globSuffix ".tmp" e = true) ∧ ¬ (globSuffix ".lock" e = true)) →
      (check_folder_integrity entries).1.length = 0 ∧
      (check_folder_integrity entries).2.length = 0) ∧
    (∀ e ∈ entries, globSuffix ".tmp" e = true → e ∈ (check_folder_integrity entries).1) ∧
    (∀ e ∈ entries, globSuffix ".lock" e = true → e ∈ (check_folder_integrity entries).2) ∧
    (∀ e, e ∈ (check_folder_integrity entries).1 →
      e ∈ entries ∧ globSuffix ".tmp" e = true) ∧
    (∀ e, e ∈ (check_folder_integrity entries).2 →
      e ∈ entries ∧ globSuffix ".lock" e = true) ∧
    ((check_folder_integrity ["a.lock", "b.tmp"]).1.length
      + (check_folder_integrity ["a.lock", "b.tmp"]).2.length = 2) ∧
    (ArchCheck.check_file_locks ["a.lock", "b.tmp"]).length = 2 := by
  refine ⟨?_, ?_, ?_, ?_, ?_, by decide, by decide⟩
  · intro h
    unfold check_folder_integrity
    constructor <;> rw [List.length_eq_zero, List.filter_eq_nil_iff]
    · exact fun e he => (h e he).1
    · exact fun e he => (h e he).2
  · intro e he htmp
    exact List.mem_filter.mpr ⟨he, htmp⟩
  · intro e he hlock
    exact List.mem_filter.mpr ⟨he, hlock⟩
  · intro e he
    exact List.mem_filter.mp he
  · intro e he
    exact List.mem_filter.mp he

/-- Witness for C2 on the tree `a.lock`, `b.tmp`, `notes.md`: the `.tmp`
entry is reported, and the canonical two-file tree yields count 2. -/
theorem check_folder_integrity_reports_witness :
    ("b.tmp" ∈ (["a.lock", "b.tmp", "notes.md"] : List String) ∧
      globSuffix ".tmp" "b.tmp" = true) ∧
    "b.tmp" ∈ (check_folder_integrity ["a.lock", "b.tmp", "notes.md"]).1 ∧
    ((check_folder_integrity ["a.lock", "b.tmp"]).1.length
      + (check_folder_integrity ["a.lock", "b.tmp"]).2.length = 2) := by
  have h := check_folder_integrity_reports ["a.lock", "b.tmp", "notes.md"]
  exact ⟨⟨by decide, by decide⟩, h.2.1 "b.tmp" (by decide) (by decide), h.2.2.2.2.2.1⟩

end OmarchyCheck

namespace BootstrapPy

/-- C3: through `run_command`, a child that outlives its timeout produces a
`BootstrapException` carrying exit indicator 124, and a nonexistent
executable produces one carrying exit indicator 127. -/
theorem run_command_failure_codes (command : String) (timeout : ℕ) (check : Bool) :
    (∃ e, (run_command command timeout check RunOutcome.timedOut).2
        = Except.error e ∧ e.rc = 124) ∧
    (∃ e, (run_command command timeout check RunOutcome.notFound).2
        = Except.error e ∧ e.rc = 127) :=
  ⟨⟨_, rfl, rfl⟩, ⟨_, rfl, rfl⟩⟩

/-- C7: `run_command` hands exactly one argv list to `subprocess.run`, for
every outcome — there is never a second spawn — and on timeout, on a
missing executable, or on a checked nonzero exit it returns the raised
exception immediately. -/
theorem run_command_no_retry (command : String) (timeout : ℕ) (check : Bool)
    (outcome : RunOutcome) :
    (run_command command timeout check outcome).1 = [command.splitOn " "] ∧
    (run_command command timeout check outcome).1.length = 1 ∧
    (outcome = RunOutcome.timedOut →
      ∃ e, (run_command command timeout check outcome).2 = Except.error e) ∧
    (outcome = RunOutcome.notFound →
      ∃ e, (run_command command timeout check outcome).2 = Except.error e) ∧
    (∀ rc out err, outcome = RunOutcome.completed rc out err → check = true → rc ≠ 0 →
      ∃ e, (run_command command timeout check outcome).2 = Except.error e) := by
  refine ⟨rfl, rfl, fun h => ?_, fun h => ?_, fun rc out err h hc hrc => ?_⟩
  · subst h
    exact ⟨_, rfl⟩
  · subst h
    exact ⟨_, rfl⟩
  · subst h
    have heq : (run_command command timeout check (RunOutcome.completed rc out err)).2
        = if check = true ∧ rc ≠ 0 then
            Except.error ⟨"Command failed with exit code " ++ toString rc ++ ": " ++ command ++
              (if err ≠ "" then "\nStderr: " ++ err else ""), rc⟩
          else Except.ok ⟨rc, out, err⟩ := rfl
    rw [heq, if_pos ⟨hc, hrc⟩]
    exact ⟨_, rfl⟩

/-- Witness for C7 on the timed-out invocation of `sleep 120`. -/
theorem run_command_no_retry_witness :
    ((RunOutcome.timedOut : RunOutcome) = RunOutcome.timedOut) ∧
    (run_command "sleep 120" 60 true RunOutcome.timedOut).1.length = 1 ∧
    (run_command "sleep 120" 60 true RunOutcome.timedOut).2
      = Except.error ⟨"Command timed out after 60s: sleep 120", 124⟩ :=
  ⟨rfl, (run_command_no_retry "sleep 120" 60 true RunOutcome.timedOut).2.1, rfl⟩

/-- C6: `clean_terminate` exits with the fixed catch-all code 255 on any
unrecognized exception; a recognized `BootstrapException` exits with its
`rc`, a recognized OSError subclass with its `errno` when present and with
the generic failure code 1 otherwise, and a `subprocess.TimeoutExpired`
with 124. -/
theorem clean_terminate_codes :
    (∀ name, clean_terminate (PyError.other name) = 255) ∧
    (∀ msg rc, clean_terminate (PyError.bootstrapException msg rc) = rc) ∧
    (∀ kind e, clean_terminate (PyError.osError kind (some e)) = e) ∧
    (∀ kind, clean_terminate (PyError.osError kind none) = 1) ∧
    (∀ cmd, clean_terminate (PyError.timeoutExpired cmd) = 124) :=
  ⟨fun _ => rfl, fun _ _ => rfl, fun _ _ => rfl, fun _ => rfl, fun _ => rfl⟩

/-- C8: with the version flag set, the `main` callback echoes the fixed
version line for version 0.0.4 and raises `typer.Exit(0)`, which `cli_run`
turns into process exit code 0. -/
theorem version_flag_exits_zero (verbose : ℕ) :
    main verbose true = (["Bootstrap CLI version " ++ app_version], some 0) ∧
    "Bootstrap CLI version " ++ app_version = "Bootstrap CLI version 0.0.4" ∧
    cli_run (CliOutcome.exited 0) = 0 :=
  ⟨rfl, rfl, rfl⟩

/-- C9: when the requirements file does not exist, `install_reqs` raises a
`BootstrapException` with return code 2 while its spawn trace stays empty —
no subprocess runs on this path — and 2 is outside the spec's enumerated
exit codes 124, 127, 1 and 255. -/
theorem install_reqs_missing_file (requirements_file : String) (outcome : RunOutcome) :
    (install_reqs requirements_file false outcome).1 = [] ∧
    (∃ e, (install_reqs requirements_file false outcome).2 = Except.error e ∧
      e.rc = 2 ∧ e.message = "Requirements file not found: " ++ requirements_file) ∧
    (2:ℤ) ∉ ([124, 127, 1, 255] : List ℤ) :=
  ⟨rfl, ⟨_, rfl, rfl, rfl⟩, by decide⟩

end BootstrapPy
